import Mathlib

/-!
Shallow embedding of the session relay and tool-call dispatch engine of
`app/server.py` (class `GeminiSession`, the `connect_and_run` retry wrapper,
and the `decrypt` token decoder).

Modelling conventions:
* Instants (`datetime` values) are integers counting seconds; comparisons
  between instants in the source become integer comparisons.
* JSON values delivered by `websocket.receive_json` / `json.loads` are the
  inductive `JVal`.  The Python `in` operator on an arbitrary JSON value is
  `pyContains`: it succeeds on dicts (key membership), strings (substring)
  and lists (element membership) and raises `TypeError` (modelled as `none`)
  on numbers, booleans and `null`, exactly as in CPython.
* Library calls that can raise are modelled as `Except`/`Option`-valued
  parameters or results; a `try`/`except` block becomes a `match` on them.
* `asyncio` tasks are `TaskHandle` values carrying an id and a done flag;
  cancelling a task marks it done.  The mutable object state of a
  `GeminiSession` instance is the structure `GeminiSession`, and each loop
  body of the source becomes a step function on that structure returning the
  new state together with the externally visible effects of the iteration.
-/

/-- Instants in seconds (the source compares timezone-aware `datetime`
values; only their ordering matters here). -/
abbrev Time := Int

/-- One day, in seconds: `timedelta(days=1)` / 24 hours. -/
def secondsPerDay : Int := 86400

/-- JSON values, as produced by `websocket.receive_json` and `json.loads`.
Numbers are modelled as integers (the claims under study never depend on
fractional values). -/
inductive JVal where
  | null
  | bool (b : Bool)
  | num (n : Int)
  | str (s : String)
  | arr (xs : List JVal)
  | obj (fields : List (String × JVal))

/-- Substring test, the meaning of Python `key in s` for strings. -/
def strContainsSub (s key : String) : Bool :=
  if key = "" then true else (s.splitOn key).length != 1

/-- Python `key in data` for an arbitrary JSON value: key membership on
dicts, substring on strings, element membership on lists, and `TypeError`
(= `none`) on numbers, booleans and `null`. -/
def pyContains (key : String) : JVal → Option Bool
  | .obj fields => some (fields.any fun kv => kv.1 == key)
  | .str s => some (strContainsSub s key)
  | .arr xs => some (xs.any fun v => match v with | .str t => t == key | _ => false)
  | _ => none

/-- Dictionary lookup on a field list. -/
def jLookup (key : String) (fields : List (String × JVal)) : Option JVal :=
  (fields.find? fun kv => kv.1 == key).map fun kv => kv.2

/-- Python `data[key]`: a value on dicts holding the key, a raised
exception (`none`) on a missing key or a non-dict receiver. -/
def jGet (key : String) : JVal → Option JVal
  | .obj fields => jLookup key fields
  | _ => none

/-- An `asyncio` task handle; `done` is true once the task has completed or
been cancelled. -/
structure TaskHandle where
  tid : Nat
  done : Bool
deriving DecidableEq

/-- `task.cancel()` followed by awaiting it: the task reaches a terminal
state. -/
def cancelTask (t : TaskHandle) : TaskHandle :=
  { t with done := true }

/-- One function invocation of a tool call (`types.FunctionCall`). -/
structure FunctionCall where
  name : String
  args : List (String × JVal)
  id : String

/-- `types.LiveServerToolCall`: an optional ordered list of invocations. -/
structure LiveServerToolCall where
  function_calls : Option (List FunctionCall)

/-- The `response` payload of a `types.FunctionResponse`: either a success
dict with a `response` key or an error dict with an `error` key. -/
inductive ToolResponsePayload where
  | response (text : String)
  | error (msg : String)
deriving DecidableEq

/-- `types.FunctionResponse`, correlated by `name` and `id`. -/
structure FunctionResponse where
  name : String
  id : String
  response : ToolResponsePayload
deriving DecidableEq

/-- `types.LiveClientToolResponse`: one envelope sent back over the
upstream session via `session.send`. -/
structure LiveClientToolResponse where
  function_responses : List FunctionResponse
deriving DecidableEq

/-- The mutable state of one `GeminiSession` object (`__init__` fields).
`run_id` and `user_id` store whatever JSON value the setup payload carried.
`next_tid` supplies fresh ids for `asyncio.create_task`. -/
structure GeminiSession where
  run_id : JVal
  user_id : JVal
  start_time : Time
  end_time : Time
  is_running : Bool
  tool_tasks : List TaskHandle
  tool_call_queue : List LiveServerToolCall
  tool_processor_task : Option TaskHandle
  next_tid : Nat

namespace GeminiSession

/-- `GeminiSession.__init__`: identity sentinels, `_is_running = True`,
empty task list and queue, no processor task yet. -/
def init (start_time end_time : Time) : GeminiSession :=
  { run_id := .str "n/a"
    user_id := .str "n/a"
    start_time := start_time
    end_time := end_time
    is_running := true
    tool_tasks := []
    tool_call_queue := []
    tool_processor_task := none
    next_tid := 0 }

/-- `GeminiSession.cleanup`: sets `_is_running = False`, cancels and awaits
the processor task (suppressing its `CancelledError`), cancels every
outstanding tool task, gathers them with `return_exceptions=True`, and
clears `_tool_tasks`.  Every step is exception-free, so the model is a
total function. -/
def cleanup (s : GeminiSession) : GeminiSession :=
  { s with
    is_running := false
    tool_processor_task := s.tool_processor_task.map cancelTask
    tool_tasks := [] }

/-- `GeminiSession._handle_tool_call`, as the ordered list of envelopes the
coroutine sends over the upstream session.  `call_tool` models
`await self.mcp_client.call_tool(fc.name, fc.args)` together with the
`response[0].text` extraction: `.ok text` on success, `.error msg` when the
backend call (or the result extraction) raises, in which case the `except`
branch builds the error envelope.  `session.send` itself is modelled as
succeeding. -/
def handle_tool_call (call_tool : FunctionCall → Except String String)
    (tool_call : LiveServerToolCall) : List LiveClientToolResponse :=
  match tool_call.function_calls with
  | none => []
  | some fcs =>
    fcs.map fun fc =>
      match call_tool fc with
      | .ok text =>
          { function_responses := [{ name := fc.name, id := fc.id,
                                     response := .response text }] }
      | .error e =>
          { function_responses := [{ name := fc.name, id := fc.id,
                                     response := .error ("Tool execution failed: " ++ e) }] }

/-- One iteration of the `_process_tool_calls` dispatcher loop.  If
`_is_running` is false the `while` guard fails and nothing happens.
Otherwise the loop pops the queue head (an empty queue is the
`asyncio.TimeoutError` branch: state unchanged, loop continues), spawns a
task running `_handle_tool_call`, appends it to `_tool_tasks`, and prunes
completed tasks.  Returns the new state and the tool task spawned this
iteration, if any. -/
def process_tool_calls_step (s : GeminiSession) :
    GeminiSession × Option TaskHandle :=
  if s.is_running then
    match s.tool_call_queue with
    | [] => (s, none)
    | _tc :: rest =>
        let task : TaskHandle := { tid := s.next_tid, done := false }
        ({ s with
            tool_call_queue := rest
            tool_tasks := (s.tool_tasks ++ [task]).filter fun t => !t.done
            next_tid := s.next_tid + 1 }, some task)
  else (s, none)

/-- Outcome of one `receive_from_client` loop iteration: the loop either
continues or breaks (after which the `finally` block runs `cleanup`). -/
inductive ClientStepOutcome where
  | next
  | breakLoop
deriving DecidableEq

/-- `isinstance(data, dict) and ("realtimeInput" in data or "clientContent"
in data)`. -/
def isRealtimeOrContent (data : JVal) : Bool :=
  match data with
  | .obj fields =>
      (fields.any fun kv => kv.1 == "realtimeInput") ||
      (fields.any fun kv => kv.1 == "clientContent")
  | _ => false

/-- One iteration of the `receive_from_client` loop body, for one received
message `data` at current time `now`.  Returns the new state, the messages
forwarded to the upstream session (`self.session._ws.send`), and whether
the loop continues.  Faithful points: the validity check
`not (self.start_time < current_time < self.end_time)` runs before
classification and breaks the loop; the membership test `"setup" in data`
raises `TypeError` on non-container values, and subscripting a missing or
non-dict payload raises, both caught by the generic `except` which breaks
the loop; `self.run_id` is assigned before `self.user_id`, so a payload
with `run_id` but no `user_id` mutates `run_id` and then breaks. -/
def receive_from_client_step (s : GeminiSession) (data : JVal) (now : Time) :
    GeminiSession × List JVal × ClientStepOutcome :=
  if s.start_time < now ∧ now < s.end_time then
    if isRealtimeOrContent data then
      (s, [data], .next)
    else
      match pyContains "setup" data with
      | none => (s, [], .breakLoop)
      | some false => (s, [], .next)
      | some true =>
        match jGet "setup" data with
        | none => (s, [], .breakLoop)
        | some setup =>
          match jGet "run_id" setup with
          | none => (s, [], .breakLoop)
          | some rid =>
            match jGet "user_id" setup with
            | none => ({ s with run_id := rid }, [], .breakLoop)
            | some uid => ({ s with run_id := rid, user_id := uid }, [], .next)
  else (s, [], .breakLoop)

/-- Externally visible effects of one `receive_from_gemini` iteration. -/
inductive GeminiFrameEvent where
  | forwardToClient (frame : String)
  | enqueueToolCall (tc : LiveServerToolCall)

/-- Outcome of one `receive_from_gemini` iteration: continue the loop, or
leave it through the `except` handler (after which `finally` runs
`cleanup`). -/
inductive FrameOutcome where
  | next
  | errorExit
deriving DecidableEq

/-- One iteration of the `receive_from_gemini` loop body for one raw frame.
`jsonLoads` models `json.loads` (`none` = raised), `validate` models the
`LiveServerMessage.model_validate` / `LiveServerToolCall.model_validate`
pair (`none` = validation raised).  The raw frame is forwarded to the
client by `websocket.send_bytes` before any parsing; a tool call is only
enqueued onto `_tool_call_queue` (`await self._tool_call_queue.put`), never
executed inside this loop. -/
def receive_from_gemini_step (jsonLoads : String → Option JVal)
    (validate : JVal → Option LiveServerToolCall)
    (s : GeminiSession) (frame : String) :
    GeminiSession × List GeminiFrameEvent × FrameOutcome :=
  let fwd := GeminiFrameEvent.forwardToClient frame
  match jsonLoads frame with
  | none => (s, [fwd], .errorExit)
  | some v =>
    match pyContains "toolCall" v with
    | none => (s, [fwd], .errorExit)
    | some false => (s, [fwd], .next)
    | some true =>
      match validate v with
      | none => (s, [fwd], .errorExit)
      | some tc =>
          ({ s with tool_call_queue := s.tool_call_queue ++ [tc] },
           [fwd, .enqueueToolCall tc], .next)

end GeminiSession

/-- The operations that mutate a `GeminiSession`: `cleanup`, one dispatcher
iteration, one client-loop iteration, one upstream-loop iteration, and the
`asyncio.create_task(self._process_tool_calls())` line that opens
`receive_from_gemini` (which spawns the processor task, not a tool task). -/
inductive SessionOp where
  | cleanup
  | processStep
  | clientMsg (data : JVal) (now : Time)
  | geminiFrame (jsonLoads : String → Option JVal)
      (validate : JVal → Option LiveServerToolCall) (frame : String)
  | startGeminiLoop

/-- Apply one operation; the second component is the tool-execution task
(`_handle_tool_call` task) spawned by the operation, if any. -/
def applyOp (op : SessionOp) (s : GeminiSession) :
    GeminiSession × Option TaskHandle :=
  match op with
  | .cleanup => (s.cleanup, none)
  | .processStep => s.process_tool_calls_step
  | .clientMsg data now => ((s.receive_from_client_step data now).1, none)
  | .geminiFrame jl vd frame =>
      ((GeminiSession.receive_from_gemini_step jl vd s frame).1, none)
  | .startGeminiLoop =>
      ({ s with
          tool_processor_task := some { tid := s.next_tid, done := false }
          next_tid := s.next_tid + 1 }, none)

/-- A status message pushed to the client websocket by the connection
supervisor: one per backoff retry, plus the readiness notice sent right
after the upstream session opens. -/
inductive ClientNotice where
  | retryStatus (wait : Nat)
  | ready
deriving DecidableEq

/-- The `backoff.on_exception(backoff.expo, ConnectionClosedError,
max_tries=10, on_backoff=on_backoff)` wrapper around `connect_and_run`,
with the attempt body abstracted to its failure behaviour: `succeeds i`
tells whether the i-th call of `connect_and_run` reaches the upstream
session (a failing call raises `ConnectionClosedError` before the
readiness notice is sent).  On success the body sends the readiness notice
(`Backend is ready for conversation`).  After a failure with tries left,
`on_backoff` sends one retry-status notice carrying the exponential wait
(`backoff.expo`: 2 ^ attempt) and the call is retried; with no tries left
the exception propagates and no further notice is sent.  Client
notifications are modelled as succeeding.  Returns the notices received by
the client, in order, and whether a session was established. -/
def connectAttempts (succeeds : Nat → Bool) : Nat → Nat → List ClientNotice × Bool
  | _, 0 => ([], false)
  | i, triesLeft + 1 =>
    if succeeds i then ([.ready], true)
    else if triesLeft = 0 then ([], false)
    else
      let r := connectAttempts succeeds (i + 1) triesLeft
      (.retryStatus (2 ^ i) :: r.1, r.2)

/-- `connect_and_run` under its decorator: at most 10 tries. -/
def connect_and_run_with_backoff (succeeds : Nat → Bool) :
    List ClientNotice × Bool :=
  connectAttempts succeeds 0 10

/-- The dictionary returned by `decrypt`: the decoded payload fields plus
the converted bounds and the computed `is_valid` flag.  `fromTime`/`toTime`
are `none` when the corresponding key was absent. -/
structure SessionObject where
  fields : List (String × JVal)
  fromTime : Option Time
  toTime : Option Time
  is_valid : Bool

/-- The excel-serial-date conversion `excel_start_date + timedelta(days=v)`
with instants measured in seconds from the excel epoch (1899-12-30 in the
fixed zone). -/
def excelSerialToTime (d : Int) : Time :=
  d * secondsPerDay

/-- Conversion of an optional `to`/`from` payload value: an absent key
stays `None`; `timedelta(days=v)` accepts numbers (and booleans, which are
ints in Python) and raises on any other value, aborting `decrypt`. -/
def convertSerial : Option JVal → Except Unit (Option Time)
  | none => .ok none
  | some (.num n) => .ok (some (excelSerialToTime n))
  | some (.bool b) => .ok (some (excelSerialToTime (if b then 1 else 0)))
  | some _ => .error ()

/-- The outcomes of the external library calls inside `decrypt` for one
input token: URL-unquoting is total, and each fallible stage
(`base64.b64decode`, AES-CBC `update`/`finalize`, PKCS7 unpadding, UTF-8
decoding, `json.loads`) either yields its value or raises.  Bytes are
modelled as lists of numbers. -/
structure TokenEnv where
  b64decode : Except String (List Nat)
  aesDecrypt : List Nat → Except String (List Nat)
  unpad : List Nat → Except String (List Nat)
  utf8decode : List Nat → Except String String
  jsonParse : String → Except String JVal

/-- `decrypt(session_key)`: the whole body runs inside `try`/`except
Exception`, so every raised stage yields `None`.  After JSON parsing, the
trailing-quote quick fix strips one closing double quote; the payload must
be a dict (membership tests or the `is_valid` item assignment raise on any
other JSON value, landing in the outer handler); `to` and `from` are
converted in that order, each conversion aborting on a non-numeric value;
`is_valid` is true exactly when both converted bounds exist and
`from < now < to` strictly. -/
def decrypt (env : TokenEnv) (now : Time) : Option SessionObject :=
  match env.b64decode with
  | .error _ => none
  | .ok encBytes =>
  match env.aesDecrypt encBytes with
  | .error _ => none
  | .ok decBytes =>
  match env.unpad decBytes with
  | .error _ => none
  | .ok unpadded =>
  match env.utf8decode unpadded with
  | .error _ => none
  | .ok rawStr =>
  match env.jsonParse (if rawStr.endsWith "\"" then rawStr.dropRight 1 else rawStr) with
  | .error _ => none
  | .ok parsed =>
  match parsed with
  | .obj fields =>
    match convertSerial (jLookup "to" fields) with
    | .error _ => none
    | .ok decodedTo =>
    match convertSerial (jLookup "from" fields) with
    | .error _ => none
    | .ok decodedFrom =>
      some { fields := fields
             fromTime := decodedFrom
             toTime := decodedTo
             is_valid :=
               match decodedFrom, decodedTo with
               | some f, some t => decide (f < now ∧ now < t)
               | _, _ => false }
  | _ => none

/-- The session-window selection at the head of `connect_and_run`.
`decrypt_result` is what `decrypt(session_key=initial_user_id)` would
return.  The first component is `none` when `connect_and_run` returns
before constructing a `GeminiSession`, and otherwise carries the
`(session_start, session_end)` pair handed to the session (each read with
`user_session.get(..., None)`).  The second component records whether the
branch consulted `decrypt` at all. -/
def connect_and_run_window (skip_time_check : Bool)
    (decrypt_result : Option SessionObject) (now : Time) :
    Option (Option Time × Option Time) × Bool :=
  if !skip_time_check then
    match decrypt_result with
    | none => (none, true)
    | some us =>
        if !us.is_valid then (none, true)
        else (some (us.fromTime, us.toTime), true)
  else (some (some now, some (now + secondsPerDay)), false)

/-! ## Helper lemmas -/

/-- A client-loop iteration touches no session field other than `run_id`
and `user_id`. -/
theorem receive_from_client_step_frame (s : GeminiSession) (data : JVal)
    (now : Time) :
    ((s.receive_from_client_step data now).1).is_running = s.is_running ∧
    ((s.receive_from_client_step data now).1).tool_tasks = s.tool_tasks ∧
    ((s.receive_from_client_step data now).1).tool_call_queue = s.tool_call_queue ∧
    ((s.receive_from_client_step data now).1).tool_processor_task = s.tool_processor_task ∧
    ((s.receive_from_client_step data now).1).next_tid = s.next_tid ∧
    ((s.receive_from_client_step data now).1).start_time = s.start_time ∧
    ((s.receive_from_client_step data now).1).end_time = s.end_time := by
  unfold GeminiSession.receive_from_client_step
  repeat' split
  all_goals exact ⟨rfl, rfl, rfl, rfl, rfl, rfl, rfl⟩

/-- An upstream-loop iteration touches only `tool_call_queue`. -/
theorem receive_from_gemini_step_frame (jl : String → Option JVal)
    (vd : JVal → Option LiveServerToolCall) (s : GeminiSession) (frame : String) :
    ((GeminiSession.receive_from_gemini_step jl vd s frame).1).is_running = s.is_running ∧
    ((GeminiSession.receive_from_gemini_step jl vd s frame).1).tool_tasks = s.tool_tasks := by
  simp only [GeminiSession.receive_from_gemini_step]
  repeat' split
  all_goals exact ⟨rfl, rfl⟩

/-- A dispatcher iteration never changes the running flag. -/
theorem process_tool_calls_step_is_running (s : GeminiSession) :
    ((s.process_tool_calls_step).1).is_running = s.is_running := by
  unfold GeminiSession.process_tool_calls_step
  repeat' split
  all_goals rfl

/-! ## C1 -/

/-- The single `FunctionResponse` built by `_handle_tool_call` for one
invocation: the success envelope when the backend call succeeds, the
error envelope from the `except` branch when it raises. -/
def responseFor (call_tool : FunctionCall → Except String String)
    (fc : FunctionCall) : FunctionResponse :=
  match call_tool fc with
  | .ok text => { name := fc.name, id := fc.id, response := .response text }
  | .error e => { name := fc.name, id := fc.id,
                  response := .error ("Tool execution failed: " ++ e) }

/-- `_handle_tool_call` sends one envelope per invocation, in order. -/
theorem handle_tool_call_eq_map (call_tool : FunctionCall → Except String String)
    (fcs : List FunctionCall) :
    GeminiSession.handle_tool_call call_tool ⟨some fcs⟩ =
      fcs.map fun fc => { function_responses := [responseFor call_tool fc] } := by
  simp only [GeminiSession.handle_tool_call]
  refine List.map_congr_left fun fc _ => ?_
  unfold responseFor
  rcases call_tool fc with e | text
  · rfl
  · rfl

/-- C1: for a tool-call frame with N invocations, `_handle_tool_call` sends
exactly N response envelopes over the upstream session, the i-th carrying
the i-th invocation's name and id; an invocation whose backend call fails
yields an error-shaped envelope instead of a success envelope, and a
failure at one index never changes the envelopes of the other indices. -/
theorem C1_handle_tool_call_envelopes
    (call_tool : FunctionCall → Except String String) (fcs : List FunctionCall) :
    (GeminiSession.handle_tool_call call_tool ⟨some fcs⟩).length = fcs.length ∧
    (∀ (i : Nat) (fc : FunctionCall), fcs[i]? = some fc →
      ∃ fr : FunctionResponse,
        (GeminiSession.handle_tool_call call_tool ⟨some fcs⟩)[i]? =
          some { function_responses := [fr] } ∧
        fr.name = fc.name ∧ fr.id = fc.id ∧
        ((∃ e, call_tool fc = .error e) ↔ (∃ m, fr.response = .error m))) := by
  rw [handle_tool_call_eq_map]
  constructor
  · simp
  · intro i fc hfc
    refine ⟨responseFor call_tool fc, ?_, ?_, ?_, ?_⟩
    · simp [hfc]
    · unfold responseFor
      rcases call_tool fc with e | text
      · rfl
      · rfl
    · unfold responseFor
      rcases call_tool fc with e | text
      · rfl
      · rfl
    · unfold responseFor
      rcases h : call_tool fc with e | text
      · simp
      · simp

/-- C1 witness: a frame with two invocations where the first backend call
fails and the second succeeds still yields two envelopes, the first
error-shaped and the second success-shaped. -/
theorem C1_handle_tool_call_envelopes_witness :
    let call_tool : FunctionCall → Except String String := fun fc =>
      if fc.id = "1" then .error "boom" else .ok "ok"
    let fcs : List FunctionCall := [{ name := "move", args := [], id := "1" },
                                    { name := "stop", args := [], id := "2" }]
    (GeminiSession.handle_tool_call call_tool ⟨some fcs⟩).length = 2 ∧
    (∃ fr : FunctionResponse,
      (GeminiSession.handle_tool_call call_tool ⟨some fcs⟩)[1]? =
        some { function_responses := [fr] } ∧
      fr.name = "stop" ∧ fr.id = "2" ∧
      ((∃ e, call_tool (fcs.get ⟨1, by decide⟩) = .error e) ↔
        (∃ m, fr.response = .error m))) := by
  intro call_tool fcs
  refine ⟨(C1_handle_tool_call_envelopes call_tool fcs).1, ?_⟩
  exact (C1_handle_tool_call_envelopes call_tool fcs).2 1
    { name := "stop", args := [], id := "2" } rfl

/-! ## C2 -/

/-- C2: the running flag starts true, only `cleanup` ever changes it (to
false), no operation ever turns it back on (so along any operation
sequence it stays false once false), and once it is false no operation
spawns a new tool-execution task. -/
theorem C2_running_flag_invariant :
    (∀ st et, (GeminiSession.init st et).is_running = true) ∧
    (∀ s, (GeminiSession.cleanup s).is_running = false) ∧
    (∀ s op, op ≠ SessionOp.cleanup → (applyOp op s).1.is_running = s.is_running) ∧
    (∀ s op, s.is_running = false → (applyOp op s).1.is_running = false) ∧
    (∀ (s : GeminiSession) (ops : List SessionOp), s.is_running = false →
      (ops.foldl (fun t op => (applyOp op t).1) s).is_running = false) ∧
    (∀ s op, s.is_running = false → (applyOp op s).2 = none) := by
  have hpreserve : ∀ s op, op ≠ SessionOp.cleanup →
      (applyOp op s).1.is_running = s.is_running := by
    intro s op hne
    cases op with
    | cleanup => exact absurd rfl hne
    | processStep => exact process_tool_calls_step_is_running s
    | clientMsg data now => exact (receive_from_client_step_frame s data now).1
    | geminiFrame jl vd frame => exact (receive_from_gemini_step_frame jl vd s frame).1
    | startGeminiLoop => rfl
  have hmono : ∀ s op, s.is_running = false → (applyOp op s).1.is_running = false := by
    intro s op hs
    cases op with
    | cleanup => rfl
    | processStep => exact (process_tool_calls_step_is_running s).trans hs
    | clientMsg data now => exact ((receive_from_client_step_frame s data now).1).trans hs
    | geminiFrame jl vd frame =>
        exact ((receive_from_gemini_step_frame jl vd s frame).1).trans hs
    | startGeminiLoop => exact hs
  refine ⟨fun _ _ => rfl, fun _ => rfl, hpreserve, hmono, ?_, ?_⟩
  · intro s ops
    induction ops generalizing s with
    | nil => intro hs; exact hs
    | cons op rest ih => intro hs; exact ih _ (hmono s op hs)
  · intro s op hs
    cases op with
    | cleanup => rfl
    | processStep =>
        show (s.process_tool_calls_step).2 = none
        unfold GeminiSession.process_tool_calls_step
        rw [hs]; rfl
    | clientMsg data now => rfl
    | geminiFrame jl vd frame => rfl
    | startGeminiLoop => rfl

/-- C2 witness: a freshly initialised session is running; after `cleanup`
the flag is false, a dispatcher iteration keeps it false and spawns no
task. -/
theorem C2_running_flag_invariant_witness :
    (GeminiSession.init 0 100).is_running = true ∧
    (applyOp .processStep (GeminiSession.cleanup (GeminiSession.init 0 100))).1.is_running = false ∧
    (applyOp .processStep (GeminiSession.cleanup (GeminiSession.init 0 100))).2 = none :=
  ⟨C2_running_flag_invariant.1 0 100,
   C2_running_flag_invariant.2.2.2.1 _ .processStep rfl,
   C2_running_flag_invariant.2.2.2.2.2 _ .processStep rfl⟩

/-! ## C3 -/

/-- C3: `cleanup` is idempotent — a second call produces exactly the state
of the first (running flag false, empty in-flight task list), and the
model of `cleanup` is a total function, so the second call raises
nothing. -/
theorem C3_cleanup_idempotent (s : GeminiSession) :
    GeminiSession.cleanup (GeminiSession.cleanup s) = GeminiSession.cleanup s ∧
    (GeminiSession.cleanup s).is_running = false ∧
    (GeminiSession.cleanup s).tool_tasks = [] := by
  refine ⟨?_, rfl, rfl⟩
  cases s with
  | mk run_id user_id st et ir tasks queue proc tid =>
      cases proc with
      | none => rfl
      | some t => rfl

/-! ## C4, C7, C10: the client-reader loop -/

/-- A key lookup that succeeds implies the corresponding membership test
is true. -/
theorem any_of_jLookup_eq_some {fields : List (String × JVal)} {key : String}
    {v : JVal} (h : jLookup key fields = some v) :
    (fields.any fun kv => kv.1 == key) = true := by
  unfold jLookup at h
  rcases hfind : fields.find? fun kv => kv.1 == key with _ | kv
  · rw [hfind] at h; cases h
  · have hp := @List.find?_some _ (fun kv => kv.1 == key) kv fields hfind
    exact List.any_eq_true.mpr ⟨kv, List.mem_of_find?_eq_some hfind, hp⟩

/-- A true membership test implies a key lookup succeeds. -/
theorem jLookup_eq_some_of_any {fields : List (String × JVal)} {key : String}
    (h : (fields.any fun kv => kv.1 == key) = true) :
    ∃ v, jLookup key fields = some v := by
  obtain ⟨kv, hkv, hp⟩ := List.any_eq_true.mp h
  have hs : (fields.find? fun kv => kv.1 == key).isSome :=
    List.find?_isSome.mpr ⟨kv, hkv, hp⟩
  obtain ⟨kv0, hkv0⟩ := Option.isSome_iff_exists.mp hs
  exact ⟨kv0.2, by simp [jLookup, hkv0]⟩

/-- A setup payload on which `data["setup"]["run_id"]` and
`data["setup"]["user_id"]` cannot raise: a dict holding both keys. -/
def setupPayloadOk (v : JVal) : Bool :=
  match v with
  | .obj sf => (sf.any fun kv => kv.1 == "run_id") && (sf.any fun kv => kv.1 == "user_id")
  | _ => false

/-- The messages whose classification in `receive_from_client` raises no
exception: dicts (with a well-formed setup payload when a `setup` key is
present), and strings or lists on which the membership test for `setup`
is false.  Numbers, booleans and `null` make the membership test raise
`TypeError`. -/
def classifiesSafely (data : JVal) : Bool :=
  match data with
  | .obj fields =>
      GeminiSession.isRealtimeOrContent (.obj fields) ||
      (match jLookup "setup" fields with
       | none => true
       | some v => setupPayloadOk v)
  | .str t => !(strContainsSub t "setup")
  | .arr xs => !(xs.any fun v => match v with | .str u => u == "setup" | _ => false)
  | _ => false

/-- Within the validity window, a message that classifies safely makes the
client loop continue. -/
theorem receive_next_of_safe (s : GeminiSession) (data : JVal) (now : Time)
    (h : classifiesSafely data = true)
    (hwin : s.start_time < now ∧ now < s.end_time) :
    (s.receive_from_client_step data now).2.2 = GeminiSession.ClientStepOutcome.next := by
  unfold GeminiSession.receive_from_client_step
  rw [if_pos hwin]
  cases data with
  | null => exact absurd h (by simp [classifiesSafely])
  | bool b => exact absurd h (by simp [classifiesSafely])
  | num n => exact absurd h (by simp [classifiesSafely])
  | str t =>
      have hsub : strContainsSub t "setup" = false := by
        simpa [classifiesSafely] using h
      simp [GeminiSession.isRealtimeOrContent, pyContains, hsub]
  | arr xs =>
      have hmem : (xs.any fun v => match v with | .str u => u == "setup" | _ => false) = false := by
        simpa [classifiesSafely] using h
      simp [GeminiSession.isRealtimeOrContent, pyContains, hmem]
  | obj fields =>
      cases hrc : GeminiSession.isRealtimeOrContent (.obj fields) with
      | true => simp [hrc]
      | false =>
        simp only [hrc, if_false, Bool.false_eq_true, pyContains]
        cases hset : (fields.any fun kv => kv.1 == "setup") with
        | false => simp [hset]
        | true =>
          obtain ⟨v, hv⟩ := jLookup_eq_some_of_any hset
          have hok : setupPayloadOk v = true := by
            have h' := h
            simp only [classifiesSafely, hrc, Bool.false_or, hv] at h'
            exact h'
          cases v with
          | obj sf =>
              simp only [setupPayloadOk, Bool.and_eq_true] at hok
              obtain ⟨rid, hrid⟩ := jLookup_eq_some_of_any hok.1
              obtain ⟨uid, huid⟩ := jLookup_eq_some_of_any hok.2
              simp [hset, jGet, hv, hrid, huid]
          | null => cases hok
          | bool b => cases hok
          | num n => cases hok
          | str u => cases hok
          | arr xs => cases hok

/-- C4 counterexample: with window `(0, 100)` and `now = 0`, the instant
`now` lies in the half-open interval from `start_time` (inclusive) to
`end_time`, yet the loop breaks on a valid `clientContent` message: the
source checks `start_time < now < end_time` strictly, so `now = start`
terminates the session. -/
theorem C4_counterexample :
    ((GeminiSession.init 0 100).start_time ≤ 0 ∧
      (0 : Time) < (GeminiSession.init 0 100).end_time) ∧
    ((GeminiSession.init 0 100).receive_from_client_step
        (.obj [("clientContent", .null)]) 0).2.2 =
      GeminiSession.ClientStepOutcome.breakLoop := by
  exact ⟨⟨by decide, by decide⟩, rfl⟩

/-- C4 (amended): on every inbound client message whose classification
raises no exception, the loop breaks (after which `finally` invokes
`cleanup`) exactly when the freshly computed `now` lies outside the OPEN
interval `(start_time, end_time)` — strict inequality at both ends; a
previously valid session is re-checked on each message. -/
theorem C4_amended_validity_window (s : GeminiSession) (data : JVal) (now : Time)
    (h : classifiesSafely data = true) :
    ((s.receive_from_client_step data now).2.2 =
        GeminiSession.ClientStepOutcome.breakLoop) ↔
      ¬ (s.start_time < now ∧ now < s.end_time) := by
  constructor
  · intro hb hwin
    have hn := receive_next_of_safe s data now h hwin
    rw [hb] at hn
    cases hn
  · intro hwin
    unfold GeminiSession.receive_from_client_step
    rw [if_neg hwin]

/-- C4 witness: a `clientContent` dict received at `now = 200`, outside the
window `(0, 100)`, breaks the loop. -/
theorem C4_amended_validity_window_witness :
    ((GeminiSession.init 0 100).receive_from_client_step
        (.obj [("clientContent", .null)]) 200).2.2 =
      GeminiSession.ClientStepOutcome.breakLoop :=
  (C4_amended_validity_window (GeminiSession.init 0 100)
    (.obj [("clientContent", .null)]) 200 (by decide)).mpr (by decide)

/-- C7 counterexample: the JSON number 5, received inside the validity
window, is neither a realtimeInput/clientContent message nor a setup
message, yet the session terminates: `"setup" in 5` raises `TypeError`,
the generic handler logs it and breaks the loop. -/
theorem C7_counterexample :
    ((GeminiSession.init 0 100).start_time < 50 ∧
      (50 : Time) < (GeminiSession.init 0 100).end_time) ∧
    GeminiSession.isRealtimeOrContent (.num 5) = false ∧
    pyContains "setup" (.num 5) ≠ some true ∧
    ((GeminiSession.init 0 100).receive_from_client_step (.num 5) 50).2.2 =
      GeminiSession.ClientStepOutcome.breakLoop := by
  exact ⟨⟨by decide, by decide⟩, rfl, by decide, rfl⟩

/-- C7 (amended): an in-window message that is a dict containing none of
the `realtimeInput`, `clientContent` or `setup` keys is logged as
unexpected input and the loop continues — no state change, no upstream
send, no termination.  (Non-container messages such as numbers instead
raise inside the membership test and end the session through the generic
handler.) -/
theorem C7_amended_unexpected_dict_continues (s : GeminiSession)
    (fields : List (String × JVal)) (now : Time)
    (hwin : s.start_time < now ∧ now < s.end_time)
    (h1 : (fields.any fun kv => kv.1 == "realtimeInput") = false)
    (h2 : (fields.any fun kv => kv.1 == "clientContent") = false)
    (h3 : (fields.any fun kv => kv.1 == "setup") = false) :
    s.receive_from_client_step (.obj fields) now =
      (s, [], GeminiSession.ClientStepOutcome.next) := by
  unfold GeminiSession.receive_from_client_step
  rw [if_pos hwin]
  simp [GeminiSession.isRealtimeOrContent, pyContains, h1, h2, h3]

/-- C7 witness: an unrecognized dict received in-window leaves the session
untouched and the loop running. -/
theorem C7_amended_unexpected_dict_continues_witness :
    (GeminiSession.init 0 100).receive_from_client_step
        (.obj [("foo", .num 1)]) 50 =
      (GeminiSession.init 0 100, [], GeminiSession.ClientStepOutcome.next) :=
  C7_amended_unexpected_dict_continues (GeminiSession.init 0 100)
    [("foo", .num 1)] 50 (by decide) rfl rfl rfl

/-- The client loop sends upstream only in the realtimeInput/clientContent
branch, and then it forwards exactly the received message. -/
theorem receive_from_client_step_sends (s : GeminiSession) (data : JVal)
    (now : Time) :
    (s.receive_from_client_step data now).2.1 = [] ∨
    ((s.receive_from_client_step data now).2.1 = [data] ∧
      GeminiSession.isRealtimeOrContent data = true) := by
  unfold GeminiSession.receive_from_client_step
  by_cases hwin : s.start_time < now ∧ now < s.end_time
  · rw [if_pos hwin]
    cases hrc : GeminiSession.isRealtimeOrContent data with
    | true => right; simp [hrc]
    | false =>
        left
        simp only [hrc, if_false, Bool.false_eq_true]
        repeat' split
        all_goals rfl
  · left; rw [if_neg hwin]

/-- C10: processing an in-window setup message (a dict with a `setup` key,
no realtimeInput/clientContent key, and a payload carrying `run_id` and
`user_id`) sends nothing to the upstream session and mutates exactly
`run_id` and `user_id`, from the payload fields; and any upstream send
from the client-reader loop happens only for a realtimeInput/clientContent
message, which is forwarded verbatim. -/
theorem C10_setup_message_effect :
    (∀ (s : GeminiSession) (fields sf : List (String × JVal)) (now : Time)
        (rid uid : JVal),
      s.start_time < now ∧ now < s.end_time →
      (fields.any fun kv => kv.1 == "realtimeInput") = false →
      (fields.any fun kv => kv.1 == "clientContent") = false →
      jLookup "setup" fields = some (.obj sf) →
      jLookup "run_id" sf = some rid →
      jLookup "user_id" sf = some uid →
      s.receive_from_client_step (.obj fields) now =
        ({ s with run_id := rid, user_id := uid }, [],
          GeminiSession.ClientStepOutcome.next)) ∧
    (∀ (s : GeminiSession) (data : JVal) (now : Time),
      (s.receive_from_client_step data now).2.1 ≠ [] →
      GeminiSession.isRealtimeOrContent data = true ∧
      (s.receive_from_client_step data now).2.1 = [data]) := by
  constructor
  · intro s fields sf now rid uid hwin h1 h2 hsetup hrid huid
    have hset : (fields.any fun kv => kv.1 == "setup") = true :=
      any_of_jLookup_eq_some hsetup
    unfold GeminiSession.receive_from_client_step
    rw [if_pos hwin]
    simp [GeminiSession.isRealtimeOrContent, pyContains, h1, h2, hset, jGet,
      hsetup, hrid, huid]
  · intro s data now hne
    rcases receive_from_client_step_sends s data now with h | ⟨h1, h2⟩
    · exact absurd h hne
    · exact ⟨h2, h1⟩

/-- C10 witness: the scenario setup message stores `run_id = "r1"`,
`user_id = "u1"`, sends nothing upstream, and the loop continues. -/
theorem C10_setup_message_effect_witness :
    (GeminiSession.init 0 100).receive_from_client_step
        (.obj [("setup", .obj [("run_id", .str "r1"), ("user_id", .str "u1")])]) 50 =
      ({ GeminiSession.init 0 100 with run_id := .str "r1", user_id := .str "u1" },
        [], GeminiSession.ClientStepOutcome.next) :=
  C10_setup_message_effect.1 (GeminiSession.init 0 100)
    [("setup", .obj [("run_id", .str "r1"), ("user_id", .str "u1")])]
    [("run_id", .str "r1"), ("user_id", .str "u1")] 50 (.str "r1") (.str "u1")
    (by decide) rfl rfl rfl rfl rfl

/-! ## C5: the upstream-reader loop -/

/-- C5: every upstream frame is first forwarded to the client as its raw
bytes, unmodified; when the frame parses to JSON holding a `toolCall` key
and the decoded tool call validates, it is enqueued on the dispatcher
queue with no tool task spawned and no waiting; a JSON frame without a
`toolCall` key is forwarded but not enqueued and leaves the state
untouched. -/
theorem C5_gemini_frame_forward_then_enqueue
    (jl : String → Option JVal) (vd : JVal → Option LiveServerToolCall)
    (s : GeminiSession) (frame : String) :
    ((GeminiSession.receive_from_gemini_step jl vd s frame).2.1).head? =
      some (.forwardToClient frame) ∧
    (∀ v tc, jl frame = some v → pyContains "toolCall" v = some true →
      vd v = some tc →
      GeminiSession.receive_from_gemini_step jl vd s frame =
        ({ s with tool_call_queue := s.tool_call_queue ++ [tc] },
         [.forwardToClient frame, .enqueueToolCall tc],
         GeminiSession.FrameOutcome.next)) ∧
    (∀ v, jl frame = some v → pyContains "toolCall" v = some false →
      GeminiSession.receive_from_gemini_step jl vd s frame =
        (s, [.forwardToClient frame], GeminiSession.FrameOutcome.next)) ∧
    ((GeminiSession.receive_from_gemini_step jl vd s frame).1.tool_tasks =
      s.tool_tasks) := by
  refine ⟨?_, ?_, ?_, (receive_from_gemini_step_frame jl vd s frame).2⟩
  · simp only [GeminiSession.receive_from_gemini_step]
    repeat' split
    all_goals rfl
  · intro v tc hv htc hvd
    simp [GeminiSession.receive_from_gemini_step, hv, htc, hvd]
  · intro v hv htc
    simp [GeminiSession.receive_from_gemini_step, hv, htc]

/-- C5 witness: a concrete tool-call frame is forwarded first and then
enqueued; a concrete plain frame is forwarded only. -/
theorem C5_gemini_frame_forward_then_enqueue_witness :
    let jl : String → Option JVal := fun f =>
      if f = "callframe" then some (.obj [("toolCall", .null)])
      else some (.obj [("serverContent", .null)])
    let vd : JVal → Option LiveServerToolCall := fun _ => some ⟨some []⟩
    GeminiSession.receive_from_gemini_step jl vd (GeminiSession.init 0 100) "callframe" =
      ({ GeminiSession.init 0 100 with tool_call_queue := [⟨some []⟩] },
       [.forwardToClient "callframe", .enqueueToolCall ⟨some []⟩],
       GeminiSession.FrameOutcome.next) ∧
    GeminiSession.receive_from_gemini_step jl vd (GeminiSession.init 0 100) "plain" =
      (GeminiSession.init 0 100, [.forwardToClient "plain"],
       GeminiSession.FrameOutcome.next) := by
  intro jl vd
  constructor
  · exact (C5_gemini_frame_forward_then_enqueue jl vd (GeminiSession.init 0 100)
      "callframe").2.1 (.obj [("toolCall", .null)]) ⟨some []⟩ rfl (by decide) rfl
  · exact (C5_gemini_frame_forward_then_enqueue jl vd (GeminiSession.init 0 100)
      "plain").2.2.1 (.obj [("serverContent", .null)]) rfl (by decide)

/-! ## C6: connection retry with backoff -/

/-- Unrolling of `connectAttempts`: k failures followed by a success, with
budget remaining, produce one retry notice per failure (with the
exponential waits) plus the readiness notice, and establish the session. -/
theorem connectAttempts_spec (succeeds : Nat → Bool) (k : Nat) :
    ∀ (i triesLeft : Nat), k < triesLeft →
      (∀ j, j < k → succeeds (i + j) = false) → succeeds (i + k) = true →
      connectAttempts succeeds i triesLeft =
        (((List.range k).map fun j => ClientNotice.retryStatus (2 ^ (i + j))) ++
          [.ready], true) := by
  induction k with
  | zero =>
      intro i triesLeft hlt hfail hsucc
      match triesLeft, hlt with
      | t + 1, _ =>
        have hi : succeeds i = true := by simpa using hsucc
        unfold connectAttempts
        simp [hi]
  | succ k ih =>
      intro i triesLeft hlt hfail hsucc
      match triesLeft, hlt with
      | t + 1, _ =>
        have hi : succeeds i = false := by simpa using hfail 0 (Nat.succ_pos k)
        have ht : ¬ (t = 0) := by omega
        have hrest := ih (i + 1) t (by omega)
          (fun j hj => by
            have := hfail (j + 1) (by omega)
            simpa [Nat.add_assoc, Nat.add_comm 1 j] using this)
          (by
            have := hsucc
            simpa [Nat.add_assoc, Nat.add_comm 1 k] using this)
        unfold connectAttempts
        rw [hi, if_neg ht]
        simp only [Bool.false_eq_true, if_false, hrest]
        rw [List.range_succ_eq_map]
        simp only [List.map_cons, List.map_map, Nat.add_zero, List.cons_append]
        refine congrArg (fun l => (ClientNotice.retryStatus (2 ^ i) :: l ++ [ClientNotice.ready], true)) ?_
        refine List.map_congr_left fun j _ => ?_
        have : i + 1 + j = i + (j + 1) := by omega
        simp [Function.comp, this]

/-- C6: under the `backoff` decorator (max 10 tries, exponential waits),
a run with k < 10 transient `ConnectionClosedError` failures followed by
one success establishes the session, and the client receives exactly one
retry-status notice per failed attempt, in order, followed by exactly one
readiness notice. -/
theorem C6_retry_then_success (succeeds : Nat → Bool) (k : Nat) (hk : k < 10)
    (hfail : ∀ i, i < k → succeeds i = false) (hsucc : succeeds k = true) :
    connect_and_run_with_backoff succeeds =
      (((List.range k).map fun i => ClientNotice.retryStatus (2 ^ i)) ++
        [.ready], true) := by
  have h := connectAttempts_spec succeeds k 0 10 hk
    (fun j hj => by simpa using hfail j hj) (by simpa using hsucc)
  simpa [connect_and_run_with_backoff] using h

/-- C6 witness: two failures then success yield retry notices with waits
1 and 2 seconds, then the readiness notice, and an established session. -/
theorem C6_retry_then_success_witness :
    connect_and_run_with_backoff (fun i => i == 2) =
      ([ClientNotice.retryStatus 1, ClientNotice.retryStatus 2,
        ClientNotice.ready], true) := by
  have h := C6_retry_then_success (fun i => i == 2) 2 (by omega)
    (fun i hi => by
      match i, hi with
      | 0, _ => rfl
      | 1, _ => rfl)
    rfl
  simpa [List.range_succ] using h

/-! ## C8: session-window substitution -/

/-- C8: with skip-validity-check configured, `connect_and_run` uses the
window from `now` to `now + 24h` and never consults `decrypt`; with the
check on, a missing (`None`) or invalid decode returns before any
`GeminiSession` is constructed. -/
theorem C8_window_selection :
    (∀ (dr : Option SessionObject) (now : Time),
      connect_and_run_window true dr now =
        (some (some now, some (now + secondsPerDay)), false)) ∧
    (∀ now : Time, (connect_and_run_window false none now).1 = none) ∧
    (∀ (us : SessionObject) (now : Time), us.is_valid = false →
      (connect_and_run_window false (some us) now).1 = none) := by
  refine ⟨fun dr now => rfl, fun now => rfl, ?_⟩
  intro us now h
  simp [connect_and_run_window, h]

/-- C8 witness: skip mode yields the 24-hour substitute window without
consulting decrypt; an invalid decode yields no session. -/
theorem C8_window_selection_witness :
    connect_and_run_window true none 10 = (some (some 10, some 86410), false) ∧
    (connect_and_run_window false
      (some { fields := [], fromTime := none, toTime := none, is_valid := false }) 10).1 =
      none :=
  ⟨C8_window_selection.1 none 10,
   C8_window_selection.2.2 { fields := [], fromTime := none, toTime := none, is_valid := false } 10 rfl⟩

/-! ## C9: the token decoder -/

/-- The `is_valid` computation of `decrypt`: true exactly when both bounds
are present and `now` lies strictly between them. -/
theorem sessionValidFlag (dfrom dto : Option Time) (now : Time) :
    ((match dfrom, dto with
      | some f, some t => decide (f < now ∧ now < t)
      | _, _ => false) = true) ↔
      (∃ f t, dfrom = some f ∧ dto = some t ∧ f < now ∧ now < t) := by
  cases dfrom with
  | none => simp
  | some f =>
      cases dto with
      | none => simp
      | some t => simp

/-- C9: `decrypt` is total — the embedding returns `some` dictionary or
`none`, and every stage failure (base64, cipher, padding, unicode
decoding, JSON parsing) as well as a non-dict JSON payload yields `none`;
whenever it returns a dictionary, its `is_valid` flag is true exactly when
both decoded bounds are present and `now` lies strictly between them. -/
theorem C9_decrypt_totality_and_validity :
    (∀ (env : TokenEnv) (now : Time) (e : String),
      env.b64decode = .error e → decrypt env now = none) ∧
    (∀ (env : TokenEnv) (now : Time) (bs : List Nat) (e : String),
      env.b64decode = .ok bs → env.aesDecrypt bs = .error e →
      decrypt env now = none) ∧
    (∀ (env : TokenEnv) (now : Time) (bs ds : List Nat) (e : String),
      env.b64decode = .ok bs → env.aesDecrypt bs = .ok ds →
      env.unpad ds = .error e → decrypt env now = none) ∧
    (∀ (env : TokenEnv) (now : Time) (bs ds us : List Nat) (e : String),
      env.b64decode = .ok bs → env.aesDecrypt bs = .ok ds →
      env.unpad ds = .ok us → env.utf8decode us = .error e →
      decrypt env now = none) ∧
    (∀ (env : TokenEnv) (now : Time) (bs ds us : List Nat) (raw e : String),
      env.b64decode = .ok bs → env.aesDecrypt bs = .ok ds →
      env.unpad ds = .ok us → env.utf8decode us = .ok raw →
      env.jsonParse (if raw.endsWith "\"" then raw.dropRight 1 else raw) = .error e →
      decrypt env now = none) ∧
    (∀ (env : TokenEnv) (now : Time) (bs ds us : List Nat) (raw : String) (v : JVal),
      env.b64decode = .ok bs → env.aesDecrypt bs = .ok ds →
      env.unpad ds = .ok us → env.utf8decode us = .ok raw →
      env.jsonParse (if raw.endsWith "\"" then raw.dropRight 1 else raw) = .ok v →
      (∀ fields, v ≠ .obj fields) → decrypt env now = none) ∧
    (∀ (env : TokenEnv) (now : Time) (d : SessionObject),
      decrypt env now = some d →
      (d.is_valid = true ↔
        ∃ f t, d.fromTime = some f ∧ d.toTime = some t ∧ f < now ∧ now < t)) := by
  refine ⟨?_, ?_, ?_, ?_, ?_, ?_, ?_⟩
  · intro env now e h
    simp [decrypt, h]
  · intro env now bs e h1 h2
    simp [decrypt, h1, h2]
  · intro env now bs ds e h1 h2 h3
    simp [decrypt, h1, h2, h3]
  · intro env now bs ds us e h1 h2 h3 h4
    simp [decrypt, h1, h2, h3, h4]
  · intro env now bs ds us raw e h1 h2 h3 h4 h5
    simp [decrypt, h1, h2, h3, h4, h5]
  · intro env now bs ds us raw v h1 h2 h3 h4 h5 hnv
    cases v with
    | obj fields => exact absurd rfl (hnv fields)
    | null => simp [decrypt, h1, h2, h3, h4, h5]
    | bool b => simp [decrypt, h1, h2, h3, h4, h5]
    | num n => simp [decrypt, h1, h2, h3, h4, h5]
    | str u => simp [decrypt, h1, h2, h3, h4, h5]
    | arr xs => simp [decrypt, h1, h2, h3, h4, h5]
  · intro env now d hd
    unfold decrypt at hd
    repeat' split at hd
    all_goals try exact Option.noConfusion hd
    all_goals injection hd with hd
    all_goals subst hd
    all_goals simp_all

/-- C9 witness: a token whose base64 decoding raises yields `None`, and a
fully decodable token with bounds at serial days 0 and 1 is valid at
`now = 3600` seconds, strictly inside the bounds. -/
theorem C9_decrypt_totality_and_validity_witness :
    decrypt { b64decode := .error "bad base64", aesDecrypt := fun _ => .ok [],
              unpad := fun _ => .ok [], utf8decode := fun _ => .ok "",
              jsonParse := fun _ => .ok .null } 0 = none ∧
    (({ fields := [("from", .num 0), ("to", .num 1)], fromTime := some 0,
        toTime := some 86400, is_valid := true } : SessionObject).is_valid = true ↔
      ∃ f t, (some (0 : Time) = some f ∧ some (86400 : Time) = some t ∧
        f < 3600 ∧ (3600 : Time) < t)) :=
  ⟨C9_decrypt_totality_and_validity.1
      { b64decode := .error "bad base64", aesDecrypt := fun _ => .ok [],
        unpad := fun _ => .ok [], utf8decode := fun _ => .ok "",
        jsonParse := fun _ => .ok .null } 0 "bad base64" rfl,
   C9_decrypt_totality_and_validity.2.2.2.2.2.2
      { b64decode := .ok [0], aesDecrypt := fun _ => .ok [0],
        unpad := fun _ => .ok [0], utf8decode := fun _ => .ok "p",
        jsonParse := fun _ => .ok (.obj [("from", .num 0), ("to", .num 1)]) }
      3600
      { fields := [("from", .num 0), ("to", .num 1)], fromTime := some 0,
        toTime := some 86400, is_valid := true }
      rfl⟩
